import Mathlib

/-!
Shallow embedding of the front end in `src/src/main.rs` (tokenizer, syntax
nodes, environments, parsing context, parser).  Source buffers are modelled
as `List Nat` of byte values; Rust `String`s attached to nodes and errors
are likewise modelled as their byte sequences (`String::from_utf8_lossy` is
the identity on the valid-UTF-8/ASCII data exercised here).  Console output
(`println!`) is not part of any function's return value and is dropped.
-/

set_option autoImplicit false

namespace Ndc

/-- Bytes of an ASCII string, for writing concrete buffers readably. -/
def strBytes (s : String) : List Nat := s.data.map (fun c => c.toNat)

/-- `enum ErrorType` from the source (main.rs line 65). -/
inductive ErrorType where
  | ERROR_NONE
  | ERROR_ARGUMENTS
  | ERROR_TYPE
  | ERROR_GENERIC
  | ERROR_SYNTAX
  | ERROR_TODO
  | ERROR_MAX
deriving DecidableEq, Repr

/-- `struct Error` (main.rs line 76): a kind and an optional message. -/
structure Error where
  type_ : ErrorType
  msg : Option (List Nat)
deriving DecidableEq, Repr

/-- `fn ok()` (main.rs line 81). -/
def ok : Error := { type_ := ErrorType.ERROR_NONE, msg := none }

/-- `fn error_prep` (main.rs line 109): overwrite kind and message. -/
def error_prep (kind : ErrorType) (message : List Nat) : Error :=
  { type_ := kind, msg := some message }

/-- `const WHITESPACE: &[u8] = b" \r\n"` membership test (main.rs line 114). -/
def isWhitespaceByte (b : Nat) : Bool := b == 32 || b == 13 || b == 10

/-- `const DELIMITERS: &[u8] = b" \r\n,():"` membership test (main.rs line 115). -/
def isDelimiterByte (b : Nat) : Bool :=
  b == 32 || b == 13 || b == 10 || b == 44 || b == 40 || b == 41 || b == 58

/-- `struct Token` (main.rs line 117): a byte-offset span into the source. -/
structure Token where
  beginning : Nat
  end_ : Nat
deriving DecidableEq, Repr

/-- Number of leading whitespace bytes of a byte list: the number of steps
taken by the whitespace-skipping `while` loop of `lex` (main.rs line 137). -/
def wsCount : List Nat → Nat
  | [] => 0
  | b :: rest => if isWhitespaceByte b then wsCount rest + 1 else 0

/-- Number of leading bytes that are neither delimiters nor the zero
sentinel: the number of steps of the token-extending `while` loop of `lex`
(main.rs line 147). -/
def tokCount : List Nat → Nat
  | [] => 0
  | b :: rest => if !isDelimiterByte b && b != 0 then tokCount rest + 1 else 0

/-- Final cursor of the whitespace-skipping loop of `lex` started at `i`. -/
def skipWhitespace (source : List Nat) (i : Nat) : Nat :=
  i + wsCount (source.drop i)

/-- Final cursor of the token-extending loop of `lex` started at `e`. -/
def scanTokenEnd (source : List Nat) (e : Nat) : Nat :=
  e + tokCount (source.drop e)

/-- Message of the `start > source.len()` failure of `lex` (main.rs line 133). -/
def msgCannotLex : List Nat := strBytes ("Can not lex empty source.")

/-- `fn lex` (main.rs lines 130-157).  The `token` argument models the
`&mut Token` out-parameter: it is returned unchanged on the arguments
error (the source writes the token only after that check), and fully
overwritten otherwise. -/
def lex (source : List Nat) (start : Nat) (token : Token) : Error × Token :=
  if source.length < start then
    (error_prep ErrorType.ERROR_ARGUMENTS msgCannotLex, token)
  else
    let b := skipWhitespace source start
    if source.length ≤ b then (ok, { beginning := b, end_ := b })
    else if source.getD b 0 = 0 then (ok, { beginning := b, end_ := b })
    else
      let e := scanTokenEnd source b
      if e = b then (ok, { beginning := b, end_ := b + 1 })
      else (ok, { beginning := b, end_ := e })

/-- `enum NodeType` from the source (main.rs line 184). -/
inductive NodeType where
  | NODE_TYPE_NONE
  | NODE_TYPE_INTEGER
  | NODE_TYPE_SYMBOL
  | NODE_TYPE_VARIABLE_DECLARATION
  | NODE_TYPE_VARIABLE_DECLARATION_INITIALIZED
  | NODE_TYPE_BINARY_OPERATOR
  | NODE_TYPE_PROGRAM
  | NODE_TYPE_MAX
deriving DecidableEq, Repr

/-- `struct NodeValue` (main.rs line 215): an integer payload (i64, here
an unbounded `Int` -- `parse_integer` is the only producer and it range
checks) and an optional symbol payload (byte text). -/
structure NodeValue where
  integer : Int
  symbol : Option (List Nat)
deriving DecidableEq, Repr

/-- `struct Node` (main.rs line 221): tag, payload, first child, next
sibling (the source links children as a first-child/next-sibling chain of
`Option Box Node`). -/
inductive Node where
  | mk (type_ : NodeType) (value : NodeValue) (children : Option Node)
      (next_child : Option Node)

def Node.type_ : Node → NodeType
  | .mk t _ _ _ => t

def Node.value : Node → NodeValue
  | .mk _ v _ _ => v

def Node.children : Node → Option Node
  | .mk _ _ c _ => c

def Node.next_child : Node → Option Node
  | .mk _ _ _ n => n

/-- `fn node_allocate` (main.rs line 230): a fresh `None` node. -/
def node_allocate : Node :=
  .mk NodeType.NODE_TYPE_NONE { integer := 0, symbol := none } none none

/-- `fn nonep` (main.rs line 242). -/
def nonep (node : Node) : Bool := node.type_ == NodeType.NODE_TYPE_NONE

/-- `fn integerp` (main.rs line 246). -/
def integerp (node : Node) : Bool := node.type_ == NodeType.NODE_TYPE_INTEGER

/-- `fn symbolp` (main.rs line 250). -/
def symbolp (node : Node) : Bool := node.type_ == NodeType.NODE_TYPE_SYMBOL

/-- The `node.type_ = t` field assignment used by the parser on freshly
allocated nodes (main.rs lines 640, 643). -/
def setNodeType (n : Node) (t : NodeType) : Node :=
  match n with
  | .mk _ v c nc => .mk t v c nc

/-- The `node.type_ = INTEGER; node.value.integer = v` double assignment
performed by `parse_integer` (main.rs lines 507-516); all other fields are
left as they were. -/
def setNodeInteger (n : Node) (v : Int) : Node :=
  match n with
  | .mk _ val c nc =>
    .mk NodeType.NODE_TYPE_INTEGER { integer := v, symbol := val.symbol } c nc

/-- Helper of `node_add_child`: walk the sibling chain and hang the new
node at its end (the `while let` of main.rs line 262). -/
def appendSibling : Node → Node → Node
  | .mk t v c none, newNode => .mk t v c (some newNode)
  | .mk t v c (some sib), newNode => .mk t v c (some (appendSibling sib newNode))

/-- `fn node_add_child` (main.rs line 255): append `newChild` at the end of
`parent`'s child sequence. -/
def node_add_child (parent : Node) (newChild : Node) : Node :=
  match parent with
  | .mk t v none nc => .mk t v (some newChild) nc
  | .mk t v (some c) nc => .mk t v (some (appendSibling c newChild)) nc

/-- `fn node_compare` (main.rs line 272): boolean-like structural
comparison.  The composite variants print a TODO and return 0 in the
source; the prints are dropped here. -/
def node_compare (a b : Option Node) : Nat :=
  match a, b with
  | none, none => 1
  | none, some _ => 0
  | some _, none => 0
  | some a, some b =>
    if a.type_ ≠ b.type_ then 0
    else
      match a.type_ with
      | NodeType.NODE_TYPE_NONE => if nonep b then 1 else 0
      | NodeType.NODE_TYPE_INTEGER =>
        if a.value.integer = b.value.integer then 1 else 0
      | NodeType.NODE_TYPE_SYMBOL =>
        match a.value.symbol, b.value.symbol with
        | some l, some r => if l = r then 1 else 0
        | none, none => 1
        | _, _ => 0
      | _ => 0

/-- `fn node_integer` (main.rs line 333). -/
def node_integer (value : Int) : Node :=
  .mk NodeType.NODE_TYPE_INTEGER { integer := value, symbol := none } none none

/-- `fn node_symbol` (main.rs line 343); the text is kept as bytes. -/
def node_symbol (symbol_string : List Nat) : Node :=
  .mk NodeType.NODE_TYPE_SYMBOL { integer := 0, symbol := some symbol_string } none none

/-- `fn node_symbol_from_buffer` (main.rs line 350); `from_utf8_lossy` is
modelled as the identity on the byte text. -/
def node_symbol_from_buffer (buffer : List Nat) : Node :=
  .mk NodeType.NODE_TYPE_SYMBOL { integer := 0, symbol := some buffer } none none

/-- `struct Binding` (main.rs line 416); the `next` links of the source
become the order of a `List`. -/
structure Binding where
  id : Node
  value : Node

/-- `struct Environment` (main.rs line 423): optional parent plus the
binding chain. -/
inductive Environment where
  | mk (parent : Option Environment) (bind : List Binding)

def Environment.parent : Environment → Option Environment
  | .mk p _ => p

def Environment.bind : Environment → List Binding
  | .mk _ b => b

/-- `fn environment_create` (main.rs line 428). -/
def environment_create (parent : Option Environment) : Environment :=
  .mk parent []

/-- The scanning `while let` of `environment_set` (main.rs line 443):
overwrite the value of the first binding whose id compares equal, or
report `none` when no binding matches. -/
def setBindings : List Binding → Node → Node → Option (List Binding)
  | [], _, _ => none
  | b :: rest, id, value =>
    if node_compare (some b.id) (some id) ≠ 0 then
      some ({ id := b.id, value := value } :: rest)
    else
      match setBindings rest id value with
      | some rest2 => some (b :: rest2)
      | none => none

/-- `fn environment_set` (main.rs line 437).  Returns the source's i32
status (0 failure, 1 created new, 2 overwrote existing) together with the
updated environment (modelling the `&mut Environment`). -/
def environment_set (env : Environment) (id value : Node) : Nat × Environment :=
  if id.type_ = NodeType.NODE_TYPE_NONE ∧ value.type_ = NodeType.NODE_TYPE_NONE then
    (0, env)
  else
    match setBindings env.bind id value with
    | some bs => (2, .mk env.parent bs)
    | none => (1, .mk env.parent ({ id := id, value := value } :: env.bind))

/-- The scanning `while let` of `environment_get` (main.rs line 464). -/
def getBindings : List Binding → Node → Option Node
  | [], _ => none
  | b :: rest, id =>
    if node_compare (some b.id) (some id) ≠ 0 then some b.value
    else getBindings rest id

/-- `fn environment_get` (main.rs line 462).  `some v` models status 1 with
`*result = v`; `none` models status 0 with the result untouched. -/
def environment_get (env : Environment) (id : Node) : Option Node :=
  getBindings env.bind id

/-- `fn environment_get_by_symbol` (main.rs line 474). -/
def environment_get_by_symbol (env : Environment) (symbol : List Nat) : Option Node :=
  environment_get env (node_symbol symbol)

/-- The byte slice `&source[token.beginning..token.end]` of a token. -/
def tokenSlice (source : List Nat) (token : Token) : List Nat :=
  (source.drop token.beginning).take (token.end_ - token.beginning)

/-- The loop body of `token_string_equalp` (main.rs line 488): walk the
string bytes and the source cursor together; out-of-range source access or
a mismatch fails, exhausting either side succeeds. -/
def tseGo : List Nat → Nat → Nat → List Nat → Nat
  | [], _, _, _ => 1
  | b :: rest, beg, fin, source =>
    if beg < fin then
      if source.length ≤ beg then 0
      else if b = source.getD beg 0 then tseGo rest (beg + 1) fin source
      else 0
    else 1

/-- `fn token_string_equalp` (main.rs line 481): boolean-like i32. -/
def token_string_equalp (string : List Nat) (token : Token) (source : List Nat) : Nat :=
  if string = [] then 1
  else tseGo string token.beginning token.end_ source

/-- ASCII decimal digit test, as in Rust's `i64::from_str`. -/
def isDigitByte (b : Nat) : Bool := 48 ≤ b && b ≤ 57

/-- Value of a digit string (most significant first). -/
def digitsToNat (ds : List Nat) : Nat :=
  ds.foldl (fun a d => a * 10 + (d - 48)) 0

/-- Split an optional single leading `+`/`-` sign off a byte string, as
Rust's `i64::from_str` does. -/
def signSplit : List Nat → Int × List Nat
  | [] => (1, [])
  | b :: rest =>
    if b = 43 then (1, rest)
    else if b = 45 then (-1, rest)
    else (1, b :: rest)

/-- Rust's `str::parse::<i64>` composed with the `from_utf8` check of
`parse_integer` (main.rs line 510): an optional sign followed by one or
more ASCII digits, with the exact value required to fit in the i64 range
(overflow is an `Err`, not a saturation).  Any byte string accepted here is
ASCII, so the separate UTF-8 validity check of the source adds nothing. -/
def parseI64 (bs : List Nat) : Option Int :=
  let sd := signSplit bs
  if sd.2 = [] then none
  else if sd.2.all isDigitByte then
    let v : Int := sd.1 * (digitsToNat sd.2 : Int)
    if v < -(2 ^ 63) ∨ 2 ^ 63 - 1 < v then none else some v
  else none

/-- `fn parse_integer` (main.rs line 502).  Returns the boolean-like i32
status together with the node (modelling the `&mut Node`, written only on
the two success paths). -/
def parse_integer (source : List Nat) (token : Token) (node : Node) : Nat × Node :=
  if token.end_ ≤ token.beginning ∨ source.length < token.end_ then (0, node)
  else
    let slice := tokenSlice source token
    if slice = [48] then (1, setNodeInteger node 0)
    else
      match parseI64 slice with
      | some v => if v = 0 then (0, node) else (1, setNodeInteger node v)
      | none => (0, node)

/-- `struct ParsingContext` (main.rs line 528). -/
structure ParsingContextStruct where
  types : Environment
  variables_ : Environment

/-- Bytes of the builtin type name `"integer"`. -/
def strIntegerBytes : List Nat := strBytes ("integer")

/-- `fn parse_context_create` (main.rs line 534): both environments empty,
then `types` seeded with `"integer" -> Integer(0)` (the failure branch only
prints). -/
def parse_context_create : ParsingContextStruct :=
  let types0 := environment_create none
  let r := environment_set types0 (node_symbol strIntegerBytes) (node_integer 0)
  { types := r.2, variables_ := environment_create none }

/-- Message of the invalid-type failure of `parse_expr` (main.rs line 627). -/
def msgInvalidType : List Nat := strBytes ("Invalid type within variable declaration")

/-- The `loop` of `fn parse_expr` (main.rs lines 558-664), as a function of
the lexing cursor (`current_token.end`), the out-parameter `*end` and the
out-parameter `*result`.  The token handed to `lex` only matters on the
arguments-error path, where `parse_expr` discards it, so a dummy span is
passed.  Only the integer branch loops; `fuel` bounds the iterations and is
never exhausted when the loop is entered with `fuel = source.length + 1`,
because every iteration that continues strictly advances the cursor, which
stays bounded by `source.length`. -/
def parse_expr_loop (context : ParsingContextStruct) (source : List Nat) :
    Nat → Nat → Nat → Node → Error × Nat × Node
  | 0, _, endV, result => (ok, endV, result)
  | fuel + 1, cursor, endV, result =>
    let l1 := lex source cursor { beginning := cursor, end_ := cursor }
    if l1.1.type_ ≠ ErrorType.ERROR_NONE then (l1.1, endV, result)
    else
      let tok1 := l1.2
      let endV1 := tok1.end_
      if tok1.end_ - tok1.beginning = 0 then (ok, endV1, result)
      else
        let p := parse_integer source tok1 result
        if p.1 ≠ 0 then
          let l2 := lex source tok1.end_ tok1
          if l2.1.type_ ≠ ErrorType.ERROR_NONE then (l2.1, endV1, p.2)
          else parse_expr_loop context source fuel l2.2.end_ l2.2.end_ p.2
        else
          let symbol := node_symbol_from_buffer (tokenSlice source tok1)
          let l2 := lex source tok1.end_ tok1
          if l2.1.type_ ≠ ErrorType.ERROR_NONE then (l2.1, endV1, result)
          else
            let tok2 := l2.2
            let endV2 := tok2.end_
            if tok2.end_ - tok2.beginning = 0 then (ok, endV2, result)
            else if token_string_equalp [58] tok2 source ≠ 0 then
              let l3 := lex source tok2.end_ tok2
              if l3.1.type_ ≠ ErrorType.ERROR_NONE then (l3.1, endV2, result)
              else
                let tok3 := l3.2
                let endV3 := tok3.end_
                if tok3.end_ - tok3.beginning = 0 then (ok, endV3, result)
                else
                  let expected_type_symbol :=
                    node_symbol_from_buffer (tokenSlice source tok3)
                  match environment_get context.types expected_type_symbol with
                  | none =>
                    (error_prep ErrorType.ERROR_TYPE msgInvalidType, endV3, result)
                  | some fetched =>
                    let var_decl :=
                      setNodeType node_allocate NodeType.NODE_TYPE_VARIABLE_DECLARATION
                    let type_node := setNodeType node_allocate fetched.type_
                    let var_decl := node_add_child var_decl type_node
                    let var_decl := node_add_child var_decl symbol
                    (ok, endV3, var_decl)
            else (l2.1, endV2, result)

/-- `fn parse_expr` (main.rs line 545): run the loop from cursor 0 (the
local `current_token` starts as `(0, 0)` and the first `lex` reads from its
`end`).  `endV` and `result` model the `&mut usize` / `&mut Node`
out-parameters with their values at entry. -/
def parse_expr (context : ParsingContextStruct) (source : List Nat)
    (endV : Nat) (result : Node) : Error × Nat × Node :=
  parse_expr_loop context source (source.length + 1) 0 endV result

/-! ### Helper lemmas about the tokenizer -/

theorem wsCount_le_length : ∀ l : List Nat, wsCount l ≤ l.length
  | [] => by simp [wsCount]
  | b :: rest => by
    simp only [wsCount, List.length_cons]
    split
    · have := wsCount_le_length rest
      omega
    · omega

theorem tokCount_le_length : ∀ l : List Nat, tokCount l ≤ l.length
  | [] => by simp [tokCount]
  | b :: rest => by
    simp only [tokCount, List.length_cons]
    split
    · have := tokCount_le_length rest
      omega
    · omega

theorem skipWhitespace_ge (source : List Nat) (i : Nat) :
    i ≤ skipWhitespace source i :=
  Nat.le_add_right _ _

theorem skipWhitespace_le (source : List Nat) (i : Nat) (h : i ≤ source.length) :
    skipWhitespace source i ≤ source.length := by
  have := wsCount_le_length (source.drop i)
  simp only [List.length_drop] at this
  unfold skipWhitespace
  omega

theorem scanTokenEnd_ge (source : List Nat) (e : Nat) :
    e ≤ scanTokenEnd source e :=
  Nat.le_add_right _ _

theorem scanTokenEnd_le (source : List Nat) (e : Nat) (h : e ≤ source.length) :
    scanTokenEnd source e ≤ source.length := by
  have := tokCount_le_length (source.drop e)
  simp only [List.length_drop] at this
  unfold scanTokenEnd
  omega

/-- On an in-range start, `lex` reports no error (the error out-value is
exactly the initial `ok()`). -/
theorem lex_no_error (source : List Nat) (start : Nat) (t : Token)
    (h : start ≤ source.length) : (lex source start t).1 = ok := by
  have h' : ¬ source.length < start := by omega
  unfold lex
  rw [if_neg h']
  dsimp only
  split
  · rfl
  · split
    · rfl
    · split <;> rfl

/-- On an in-range start, the span produced by `lex` satisfies
`start ≤ beginning ≤ end ≤ source.length`. -/
theorem lex_span_bounds (source : List Nat) (start : Nat) (t : Token)
    (h : start ≤ source.length) :
    start ≤ (lex source start t).2.beginning ∧
    (lex source start t).2.beginning ≤ (lex source start t).2.end_ ∧
    (lex source start t).2.end_ ≤ source.length := by
  have h' : ¬ source.length < start := by omega
  have hge := skipWhitespace_ge source start
  have hle := skipWhitespace_le source start h
  have hsge := scanTokenEnd_ge source (skipWhitespace source start)
  have hsle := scanTokenEnd_le source (skipWhitespace source start) hle
  unfold lex
  rw [if_neg h']
  dsimp only
  split
  next hend => exact ⟨hge, Nat.le_refl _, hle⟩
  · split
    next hzero => exact ⟨hge, Nat.le_refl _, hle⟩
    · split
      next heq =>
        dsimp only
        exact ⟨hge, by omega, by omega⟩
      next hne => exact ⟨hge, hsge, hsle⟩

/-! ### Claims C8 and C10: the tokenizer contract -/

/-- Claim C8: for every source buffer and cursor, `lex` fails with an
Arguments error if and only if `start > len(source)`; when `start` is in
range and, after skipping whitespace, the cursor reaches the end of the
buffer or a zero byte, `lex` returns "no token" (an empty span) with no
error. -/
theorem C8_lex_arguments_and_no_token (source : List Nat) (start : Nat) (t : Token) :
    ((lex source start t).1.type_ = ErrorType.ERROR_ARGUMENTS ↔ source.length < start) ∧
    (start ≤ source.length →
      (source.length ≤ skipWhitespace source start ∨
        source.getD (skipWhitespace source start) 0 = 0) →
      lex source start t =
        (ok, { beginning := skipWhitespace source start,
               end_ := skipWhitespace source start })) := by
  constructor
  · by_cases hlt : source.length < start
    · unfold lex
      rw [if_pos hlt]
      simp [error_prep, hlt]
    · have hok : (lex source start t).1 = ok :=
        lex_no_error source start t (by omega)
      rw [hok]
      simp [ok, hlt]
  · intro h hcase
    have h' : ¬ source.length < start := by omega
    unfold lex
    rw [if_neg h']
    dsimp only
    rcases hcase with hend | hzero
    · rw [if_pos hend]
    · by_cases hend : source.length ≤ skipWhitespace source start
      · rw [if_pos hend]
      · rw [if_neg hend, if_pos hzero]

/-- Witness for C8 at a concrete input: the two-space buffer, start 0. -/
theorem C8_witness :
    ((lex (strBytes ("  ")) 0 { beginning := 0, end_ := 0 }).1.type_ =
        ErrorType.ERROR_ARGUMENTS ↔ (strBytes ("  ")).length < 0) ∧
    (0 ≤ (strBytes ("  ")).length →
      ((strBytes ("  ")).length ≤ skipWhitespace (strBytes ("  ")) 0 ∨
        (strBytes ("  ")).getD (skipWhitespace (strBytes ("  ")) 0) 0 = 0) →
      lex (strBytes ("  ")) 0 { beginning := 0, end_ := 0 } =
        (ok, { beginning := skipWhitespace (strBytes ("  ")) 0,
               end_ := skipWhitespace (strBytes ("  ")) 0 })) :=
  C8_lex_arguments_and_no_token (strBytes ("  ")) 0 { beginning := 0, end_ := 0 }

/-- Claim C10: for every source buffer and every start with
`start ≤ len(source)`, `lex` returns with no error a token span satisfying
`start ≤ beginning ≤ end ≤ len(source)`, so every slice of the source taken
at a lexed span is in bounds. -/
theorem C10_lex_span_in_bounds (source : List Nat) (start : Nat) (t : Token)
    (h : start ≤ source.length) :
    (lex source start t).1 = ok ∧
    start ≤ (lex source start t).2.beginning ∧
    (lex source start t).2.beginning ≤ (lex source start t).2.end_ ∧
    (lex source start t).2.end_ ≤ source.length :=
  ⟨lex_no_error source start t h, lex_span_bounds source start t h⟩

/-- Witness for C10 at a concrete input: buffer `"  42"`, start 1. -/
theorem C10_witness :
    (lex (strBytes ("  42")) 1 { beginning := 0, end_ := 0 }).1 = ok ∧
    1 ≤ (lex (strBytes ("  42")) 1 { beginning := 0, end_ := 0 }).2.beginning ∧
    (lex (strBytes ("  42")) 1 { beginning := 0, end_ := 0 }).2.beginning ≤
      (lex (strBytes ("  42")) 1 { beginning := 0, end_ := 0 }).2.end_ ∧
    (lex (strBytes ("  42")) 1 { beginning := 0, end_ := 0 }).2.end_ ≤
      (strBytes ("  42")).length :=
  C10_lex_span_in_bounds (strBytes ("  42")) 1 { beginning := 0, end_ := 0 } (by decide)

/-! ### Claim C9: `token_string_equalp` accepts prefixes -/

/-- Peel the first byte off a token slice. -/
theorem slice_cons (source : List Nat) (beg fin : Nat) (hb : beg < source.length)
    (hf : beg < fin) :
    (source.drop beg).take (fin - beg) =
      source.getD beg 0 :: (source.drop (beg + 1)).take (fin - (beg + 1)) := by
  rw [List.drop_eq_getElem_cons hb]
  rw [show fin - beg = (fin - (beg + 1)) + 1 from by omega]
  rw [List.take_succ_cons]
  rw [List.getD_eq_getElem source 0 hb]

/-- The comparison loop succeeds whenever the string and the slice agree up
to the length of the shorter one. -/
theorem tseGo_prefix_eq_one (source : List Nat) (fin : Nat) (hfin : fin ≤ source.length) :
    ∀ (string : List Nat) (beg : Nat),
      (string.isPrefixOf ((source.drop beg).take (fin - beg)) ||
        ((source.drop beg).take (fin - beg)).isPrefixOf string) = true →
      tseGo string beg fin source = 1
  | [], _, _ => rfl
  | b :: rest, beg, hpre => by
    unfold tseGo
    by_cases hbf : beg < fin
    · have hblen : beg < source.length := by omega
      rw [if_pos hbf, if_neg (by omega : ¬ source.length ≤ beg)]
      rw [slice_cons source beg fin hblen hbf] at hpre
      simp only [List.isPrefixOf] at hpre
      rw [Bool.or_eq_true, Bool.and_eq_true, Bool.and_eq_true] at hpre
      rcases hpre with ⟨h1, h2⟩ | ⟨h1, h2⟩
      · rw [if_pos (eq_of_beq h1)]
        exact tseGo_prefix_eq_one source fin hfin rest (beg + 1)
          (by rw [Bool.or_eq_true]; exact Or.inl h2)
      · rw [if_pos (eq_of_beq h1).symm]
        exact tseGo_prefix_eq_one source fin hfin rest (beg + 1)
          (by rw [Bool.or_eq_true]; exact Or.inr h2)
    · rw [if_neg hbf]

/-- Claim C9: `token_string_equalp` returns success whenever the shorter of
the two byte sequences (the string and the token's span in the source) is a
prefix of the longer, not only when they are exactly equal; in particular a
zero-length token compares equal to every string. -/
theorem C9_token_string_equalp_spec :
    (∀ (string : List Nat) (token : Token) (source : List Nat),
      token.end_ ≤ source.length →
      (string.isPrefixOf (tokenSlice source token) ||
        (tokenSlice source token).isPrefixOf string) = true →
      token_string_equalp string token source = 1) ∧
    (∀ (string : List Nat) (token : Token) (source : List Nat),
      token.end_ ≤ token.beginning →
      token_string_equalp string token source = 1) := by
  constructor
  · intro string token source hlen hpre
    unfold token_string_equalp
    split
    · rfl
    · exact tseGo_prefix_eq_one source token.end_ hlen string token.beginning hpre
  · intro string token source hle
    unfold token_string_equalp
    split
    · rfl
    · cases string with
      | nil => rfl
      | cons b rest =>
        unfold tseGo
        rw [if_neg (by omega : ¬ token.beginning < token.end_)]

/-- Witness for C9: the string `"abc"` compares equal to a token whose text
is just `"a"`, and the string `"x"` compares equal to a zero-length token. -/
theorem C9_witness :
    token_string_equalp (strBytes ("abc")) { beginning := 0, end_ := 1 } (strBytes ("a")) = 1 ∧
    token_string_equalp (strBytes ("x")) { beginning := 5, end_ := 5 } (strBytes ("a")) = 1 :=
  ⟨C9_token_string_equalp_spec.1 (strBytes ("abc")) { beginning := 0, end_ := 1 }
      (strBytes ("a")) (by decide) (by decide),
    C9_token_string_equalp_spec.2 (strBytes ("x")) { beginning := 5, end_ := 5 }
      (strBytes ("a")) (by decide)⟩

/-! ### Claims C4 and C5: `parse_integer` -/

/-- Counterexample to C4 as stated: on the token `"9223372036854775808"`
(2^63, one past `i64::MAX`), `parse_integer` fails with status 0 and leaves
the node untouched, instead of succeeding with a value saturated to the i64
range as the claim asserts. -/
theorem C4_counterexample :
    parse_integer (strBytes ("9223372036854775808")) { beginning := 0, end_ := 19 }
      node_allocate = (0, node_allocate) := by
  rfl

/-- Claim C4 (amended): on every token whose text is an optional sign
followed by one or more decimal digits with value outside the 64-bit signed
range, `parse_integer` rejects the token -- status 0, node untouched -- it
does not saturate (Rust's `parse::<i64>` errors on overflow). -/
theorem C4_overflow_rejected (source : List Nat) (token : Token) (node : Node)
    (hds : (signSplit (tokenSlice source token)).2 ≠ [])
    (hdig : (signSplit (tokenSlice source token)).2.all isDigitByte = true)
    (hrange : (signSplit (tokenSlice source token)).1 *
        (digitsToNat (signSplit (tokenSlice source token)).2 : Int) < -(2 ^ 63) ∨
      2 ^ 63 - 1 < (signSplit (tokenSlice source token)).1 *
        (digitsToNat (signSplit (tokenSlice source token)).2 : Int)) :
    parse_integer source token node = (0, node) := by
  unfold parse_integer
  split
  · rfl
  · dsimp only
    split
    next heq =>
      exfalso
      rw [heq] at hrange
      have h1 : signSplit [48] = (1, [48]) := rfl
      rw [h1] at hrange
      dsimp only at hrange
      rw [show digitsToNat [48] = 0 from rfl] at hrange
      norm_num at hrange
    next hne =>
      have hnone : parseI64 (tokenSlice source token) = none := by
        unfold parseI64
        dsimp only
        rw [if_neg hds, if_pos hdig, if_pos hrange]
      rw [hnone]

/-- Witness for C4 (amended) at a concrete input: one below `i64::MIN`. -/
theorem C4_witness :
    parse_integer (strBytes ("-9223372036854775809")) { beginning := 0, end_ := 20 }
      node_allocate = (0, node_allocate) :=
  C4_overflow_rejected (strBytes ("-9223372036854775809")) { beginning := 0, end_ := 20 }
    node_allocate (by decide) (by decide) (by decide)

/-- Claim C5: the token consisting of exactly one `'0'` byte parses via
`parse_integer` to `Integer(0)` with success, while any in-bounds
multi-byte token whose numeric value is zero (such as `"00"`, `"+0"`,
`"-0"`) fails the integer parse. -/
theorem C5_zero_literal :
    (∀ (source : List Nat) (token : Token) (node : Node),
      token.end_ ≤ source.length →
      tokenSlice source token = [48] →
      parse_integer source token node = (1, setNodeInteger node 0)) ∧
    (∀ (source : List Nat) (token : Token) (node : Node),
      2 ≤ (tokenSlice source token).length →
      parseI64 (tokenSlice source token) = some 0 →
      parse_integer source token node = (0, node)) := by
  constructor
  · intro source token node hlen hslice
    have hlt : token.beginning < token.end_ := by
      by_contra hc
      push_neg at hc
      have hempty : tokenSlice source token = [] := by
        unfold tokenSlice
        rw [show token.end_ - token.beginning = 0 from by omega]
        simp
      rw [hempty] at hslice
      cases hslice
    unfold parse_integer
    rw [if_neg (by omega : ¬ (token.end_ ≤ token.beginning ∨ source.length < token.end_))]
    dsimp only
    rw [if_pos hslice]
  · intro source token node hlen2 hzero
    unfold parse_integer
    split
    · rfl
    · dsimp only
      split
      next heq =>
        rw [heq] at hlen2
        simp at hlen2
      next hne =>
        rw [hzero]
        dsimp only
        rw [if_pos rfl]

/-- Witness for C5 at concrete inputs: `"0"` succeeds as zero, `"00"`
fails. -/
theorem C5_witness :
    parse_integer (strBytes ("0")) { beginning := 0, end_ := 1 } node_allocate
      = (1, setNodeInteger node_allocate 0) ∧
    parse_integer (strBytes ("00")) { beginning := 0, end_ := 2 } node_allocate
      = (0, node_allocate) :=
  ⟨C5_zero_literal.1 (strBytes ("0")) { beginning := 0, end_ := 1 } node_allocate
      (by decide) (by decide),
    C5_zero_literal.2 (strBytes ("00")) { beginning := 0, end_ := 2 } node_allocate
      (by decide) (by decide)⟩

/-! ### Claims C6 and C7: the environment -/

/-- `setBindings` finds no binding to overwrite exactly when no binding's
id structurally compares equal to `id`. -/
theorem setBindings_none_iff (id value : Node) : ∀ bs : List Binding,
    setBindings bs id value = none ↔
      ∀ b ∈ bs, node_compare (some b.id) (some id) = 0
  | [] => by simp [setBindings]
  | b :: rest => by
    simp only [setBindings]
    split
    next hmatch =>
      simp only [List.mem_cons]
      constructor
      · intro h
        cases h
      · intro h
        exact absurd (h b (Or.inl rfl)) hmatch
    next hmatch =>
      push_neg at hmatch
      cases hs : setBindings rest id value with
      | some rest2 =>
        simp only [hs]
        constructor
        · intro h
          cases h
        · intro h
          have := (setBindings_none_iff id value rest).2 (fun b hb => h b (List.mem_cons_of_mem _ hb))
          rw [this] at hs
          cases hs
      | none =>
        simp only [hs, List.mem_cons]
        have hrest := (setBindings_none_iff id value rest).1 hs
        constructor
        · intro _ b hb
          rcases hb with rfl | hb
          · exact hmatch
          · exact hrest b hb
        · intro _
          trivial

/-- When `setBindings` overwrites, the binding count is preserved and a
subsequent lookup of `id` yields the new value. -/
theorem setBindings_some_spec (id value : Node) : ∀ (bs bs' : List Binding),
    setBindings bs id value = some bs' →
    bs'.length = bs.length ∧ getBindings bs' id = some value
  | [], _, h => by cases h
  | b :: rest, bs', h => by
    simp only [setBindings] at h
    split at h
    next hmatch =>
      cases h
      constructor
      · simp
      · simp only [getBindings]
        rw [if_pos hmatch]
    next hmatch =>
      cases hs : setBindings rest id value with
      | some rest2 =>
        rw [hs] at h
        cases h
        have ih := setBindings_some_spec id value rest rest2 hs
        constructor
        · simp [ih.1]
        · simp only [getBindings]
          rw [if_neg hmatch]
          exact ih.2
      | none =>
        rw [hs] at h
        cases h

def strA : List Nat := strBytes ("A")

/-- The environment after `set(env, "A", 1)` on a fresh environment. -/
def envA1 : Environment :=
  (environment_set (environment_create none) (node_symbol strA) (node_integer 1)).2

/-- Claim C6: `environment_set` scans bindings in order; on a structural id
match it overwrites that binding's value in place (status 2, no duplicate
created, lookup now yields the new value); with no match it prepends a new
binding (status 1); it returns the failure status 0 exactly when both id
and value are `None` nodes.  In particular `set(env,"A",1)` then
`set(env,"A",2)` leaves exactly one binding for `"A"`, with value 2. -/
theorem C6_environment_set_spec :
    (∀ (env : Environment) (id value : Node),
      ((environment_set env id value).1 = 0 ↔
        (id.type_ = NodeType.NODE_TYPE_NONE ∧ value.type_ = NodeType.NODE_TYPE_NONE))) ∧
    (∀ (env : Environment) (id value : Node),
      ¬ (id.type_ = NodeType.NODE_TYPE_NONE ∧ value.type_ = NodeType.NODE_TYPE_NONE) →
      ((∃ b ∈ env.bind, node_compare (some b.id) (some id) ≠ 0) →
        (environment_set env id value).1 = 2 ∧
        (environment_set env id value).2.bind.length = env.bind.length ∧
        environment_get (environment_set env id value).2 id = some value) ∧
      ((∀ b ∈ env.bind, node_compare (some b.id) (some id) = 0) →
        (environment_set env id value).1 = 1 ∧
        (environment_set env id value).2.bind =
          { id := id, value := value } :: env.bind)) ∧
    (environment_set envA1 (node_symbol strA) (node_integer 2)).2.bind =
      [{ id := node_symbol strA, value := node_integer 2 }] := by
  refine ⟨?_, ?_, by rfl⟩
  · intro env id value
    unfold environment_set
    split
    next h => simp [h]
    next h =>
      cases hs : setBindings env.bind id value <;> simp [h]
  · intro env id value hno
    unfold environment_set
    rw [if_neg hno]
    constructor
    · intro hex
      cases hs : setBindings env.bind id value with
      | none =>
        exfalso
        rcases hex with ⟨b, hb, hne⟩
        exact hne ((setBindings_none_iff id value env.bind).1 hs b hb)
      | some bs' =>
        have hspec := setBindings_some_spec id value env.bind bs' hs
        exact ⟨rfl, hspec.1, hspec.2⟩
    · intro hall
      rw [(setBindings_none_iff id value env.bind).2 hall]
      exact ⟨rfl, rfl⟩

/-- Witness for C6 at concrete inputs: the guard iff, an overwrite, and a
fresh insertion, all on symbol `"A"`. -/
theorem C6_witness :
    (((environment_set envA1 (node_symbol strA) (node_integer 2)).1 = 0 ↔
        ((node_symbol strA).type_ = NodeType.NODE_TYPE_NONE ∧
          (node_integer 2).type_ = NodeType.NODE_TYPE_NONE)) ∧
      ((environment_set envA1 (node_symbol strA) (node_integer 2)).1 = 2 ∧
        (environment_set envA1 (node_symbol strA) (node_integer 2)).2.bind.length =
          envA1.bind.length ∧
        environment_get (environment_set envA1 (node_symbol strA) (node_integer 2)).2
          (node_symbol strA) = some (node_integer 2))) ∧
    ((environment_set (environment_create none) (node_symbol strA) (node_integer 1)).1 = 1 ∧
      (environment_set (environment_create none) (node_symbol strA) (node_integer 1)).2.bind =
        [{ id := node_symbol strA, value := node_integer 1 }]) :=
  ⟨⟨C6_environment_set_spec.1 envA1 (node_symbol strA) (node_integer 2),
      (C6_environment_set_spec.2.1 envA1 (node_symbol strA) (node_integer 2)
        (by decide)).1 (by decide)⟩,
    (C6_environment_set_spec.2.1 (environment_create none) (node_symbol strA)
      (node_integer 1) (by decide)).2 (by decide)⟩

/-- `getBindings` returns the value of the first binding whose id compares
equal, in scan order. -/
theorem getBindings_eq_find (id : Node) : ∀ bs : List Binding,
    getBindings bs id =
      (bs.find? (fun b => node_compare (some b.id) (some id) != 0)).map Binding.value
  | [] => rfl
  | b :: rest => by
    simp only [getBindings]
    by_cases h : node_compare (some b.id) (some id) ≠ 0
    · rw [if_pos h, List.find?_cons_of_pos]
      · rfl
      · simpa using h
    · rw [if_neg h, List.find?_cons_of_neg]
      · exact getBindings_eq_find id rest
      · push_neg at h
        simp [h]

/-- Claim C7: `environment_get` scans the environment's own bindings in
order and returns the value of the first binding whose id structurally
compares equal; it never consults the parent environment even when the
parent link is set, and on an empty environment it always reports
not-found. -/
theorem C7_environment_get_spec :
    (∀ (p : Option Environment) (bs : List Binding) (id : Node),
      environment_get (.mk p bs) id =
        (bs.find? (fun b => node_compare (some b.id) (some id) != 0)).map Binding.value) ∧
    (∀ (p q : Option Environment) (bs : List Binding) (id : Node),
      environment_get (.mk p bs) id = environment_get (.mk q bs) id) ∧
    (∀ (p : Option Environment) (id : Node),
      environment_get (.mk p []) id = none) :=
  ⟨fun _ bs id => getBindings_eq_find id bs, fun _ _ _ _ => rfl, fun _ _ => rfl⟩

/-! ### Claims C1, C2 and C3: `parse_expr` -/

/-- The first token `parse_expr` lexes (from cursor 0). -/
def firstTok (source : List Nat) : Token :=
  (lex source 0 { beginning := 0, end_ := 0 }).2

/-- The second token `parse_expr` lexes on the symbol branch. -/
def secondTok (source : List Nat) : Token :=
  (lex source (firstTok source).end_ (firstTok source)).2

/-- The third token `parse_expr` lexes on the declaration branch. -/
def thirdTok (source : List Nat) : Token :=
  (lex source (secondTok source).end_ (secondTok source)).2

/-- Counterexample to C1 as stated: on the buffer `"foo"` (a single
non-integer symbol token followed by end of input) with the caller's fresh
`None` node as the result out-parameter, `parse_expr` does terminate with
no error, but its result output is not the Symbol node built from the token
text -- it is not a Symbol node at all (the `*result = *symbol` assignment
is commented out in the source, main.rs line 592). -/
theorem C1_counterexample :
    (parse_expr parse_context_create (strBytes ("foo")) 0 node_allocate).1 = ok ∧
    (parse_expr parse_context_create (strBytes ("foo")) 0 node_allocate).2.2.type_ ≠
      NodeType.NODE_TYPE_SYMBOL :=
  ⟨rfl, by decide⟩

/-- Claim C1 (amended): for every source buffer consisting of a single
non-integer symbol token followed by end of input, `parse_expr` terminates
with no error, and its result output is the caller's result node unchanged
(the Symbol node constructed from the token's text is discarded). -/
theorem C1_single_symbol_token (context : ParsingContextStruct) (source : List Nat)
    (endV : Nat) (result : Node)
    (h1 : (firstTok source).end_ - (firstTok source).beginning ≠ 0)
    (h2 : (parse_integer source (firstTok source) result).1 = 0)
    (h3 : (secondTok source).end_ - (secondTok source).beginning = 0) :
    (parse_expr context source endV result).1 = ok ∧
    (parse_expr context source endV result).2.2 = result := by
  have hb1 := lex_span_bounds source 0 { beginning := 0, end_ := 0 } (Nat.zero_le _)
  have hlex1 : (lex source 0 { beginning := 0, end_ := 0 }).1 = ok :=
    lex_no_error source 0 _ (Nat.zero_le _)
  have hlex2 : (lex source (firstTok source).end_ (firstTok source)).1 = ok :=
    lex_no_error source _ _ hb1.2.2
  simp only [firstTok, secondTok] at h1 h2 h3 hlex2
  unfold parse_expr parse_expr_loop
  dsimp only
  rw [hlex1, hlex2, if_neg (by decide : ¬ ok.type_ ≠ ErrorType.ERROR_NONE),
    if_neg h1, if_neg (fun hn => hn h2),
    if_neg (by decide : ¬ ok.type_ ≠ ErrorType.ERROR_NONE), if_pos h3]
  exact ⟨rfl, rfl⟩

/-- Witness for C1 (amended) at the concrete buffer `"foo"`. -/
theorem C1_witness :
    (parse_expr parse_context_create (strBytes ("foo")) 1 node_allocate).1 = ok ∧
    (parse_expr parse_context_create (strBytes ("foo")) 1 node_allocate).2.2 =
      node_allocate :=
  C1_single_symbol_token parse_context_create (strBytes ("foo")) 1 node_allocate
    (by decide) (by decide) (by decide)

/-- Claim C2: the input `"A: integer"` parses with no error to a
`VariableDeclaration` node whose first child is a fresh node carrying the
resolved type's variant tag (the Integer tag) and whose second child is the
Symbol node `"A"`. -/
theorem C2_declaration_success :
    parse_expr parse_context_create (strBytes ("A: integer")) 0 node_allocate =
      (ok, 10,
        Node.mk NodeType.NODE_TYPE_VARIABLE_DECLARATION { integer := 0, symbol := none }
          (some (Node.mk NodeType.NODE_TYPE_INTEGER { integer := 0, symbol := none } none
            (some (node_symbol_from_buffer (strBytes ("A"))))))
          none) := by
  rfl

/-- Whether `needle` occurs as a contiguous subsequence of the second
list. -/
def containsSeq (needle : List Nat) : List Nat → Bool
  | [] => needle.isPrefixOf []
  | b :: rest => needle.isPrefixOf (b :: rest) || containsSeq needle rest

/-- Counterexample to C3 as stated: on the input `"A: bogus"` the parse
does fail with a Type error, but the error's message is the fixed text
`"Invalid type within variable declaration"` and does not contain the
offending name `"bogus"`; the name is only printed to standard output
(main.rs line 629), which is not part of the error value the caller
receives. -/
theorem C3_counterexample :
    (parse_expr parse_context_create (strBytes ("A: bogus")) 0 node_allocate).1.type_ =
      ErrorType.ERROR_TYPE ∧
    containsSeq (strBytes ("bogus"))
      ((parse_expr parse_context_create (strBytes ("A: bogus")) 0 node_allocate).1.msg.getD [])
      = false :=
  ⟨rfl, by decide⟩

/-- Claim C3 (amended): for every input of the form `"<symbol> : <name>"`
where `<name>` is not bound in the types environment, `parse_expr` fails
with a Type error whose message is the fixed text `"Invalid type within
variable declaration"`; the offending type name is not part of the
returned error, and the caller's result node is unchanged. -/
theorem C3_invalid_type_fixed_message (context : ParsingContextStruct) (source : List Nat)
    (endV : Nat) (result : Node)
    (h1 : (firstTok source).end_ - (firstTok source).beginning ≠ 0)
    (h2 : (parse_integer source (firstTok source) result).1 = 0)
    (h3 : (secondTok source).end_ - (secondTok source).beginning ≠ 0)
    (h4 : token_string_equalp [58] (secondTok source) source ≠ 0)
    (h5 : (thirdTok source).end_ - (thirdTok source).beginning ≠ 0)
    (h6 : environment_get context.types
        (node_symbol_from_buffer (tokenSlice source (thirdTok source))) = none) :
    parse_expr context source endV result =
      (error_prep ErrorType.ERROR_TYPE msgInvalidType, (thirdTok source).end_, result) := by
  have hb1 := lex_span_bounds source 0 { beginning := 0, end_ := 0 } (Nat.zero_le _)
  have hlex1 : (lex source 0 { beginning := 0, end_ := 0 }).1 = ok :=
    lex_no_error source 0 _ (Nat.zero_le _)
  have hb2 := lex_span_bounds source (firstTok source).end_ (firstTok source) hb1.2.2
  have hlex2 : (lex source (firstTok source).end_ (firstTok source)).1 = ok :=
    lex_no_error source _ _ hb1.2.2
  have hlex3 : (lex source (secondTok source).end_ (secondTok source)).1 = ok :=
    lex_no_error source _ _ hb2.2.2
  simp only [firstTok, secondTok, thirdTok] at h1 h2 h3 h4 h5 h6 hlex2 hlex3 ⊢
  unfold parse_expr parse_expr_loop
  dsimp only
  rw [hlex1, if_neg (by decide : ¬ ok.type_ ≠ ErrorType.ERROR_NONE), if_neg h1,
    if_neg (fun hn => hn h2), hlex2,
    if_neg (by decide : ¬ ok.type_ ≠ ErrorType.ERROR_NONE), if_neg h3, if_pos h4,
    hlex3, if_neg (by decide : ¬ ok.type_ ≠ ErrorType.ERROR_NONE), if_neg h5, h6]

/-- Witness for C3 (amended) at the concrete input `"A: bogus"`. -/
theorem C3_witness :
    parse_expr parse_context_create (strBytes ("A: bogus")) 0 node_allocate =
      (error_prep ErrorType.ERROR_TYPE msgInvalidType,
        (thirdTok (strBytes ("A: bogus"))).end_, node_allocate) :=
  C3_invalid_type_fixed_message parse_context_create (strBytes ("A: bogus")) 0 node_allocate
    (by decide) (by decide) (by decide) (by decide) (by decide) (by rfl)

end Ndc

